import Mathlib

/-!
Shallow embedding of the single-shot Flask callback web server defined in
src/04-WebAPIs/C2-Preliminaries_Running_Flask_WebServer.ipynb.

The notebook cell declares a global visitor_counter, a Flask application with
two registered routes (the root path handled by hello_world and the testNYU
path handled by hello_nyu), a start_server function that resets the counter
and invokes webserver.run on host 0.0.0.0 port 5000, and a stop_server
function that looks up the werkzeug shutdown callable in the request environ
and calls it. In the source as it stands, the stop_server call inside each of
the two route handlers is commented out.

The embedding models the process state (counter plus serving status), each
handler as a pure state transformer, the werkzeug serving loop as a fold over
a finite trace of inbound requests, and the external listen call as a
fallible operation parameterized by whether the configured port is free.
-/

namespace FlaskCallback

/-- Serving status of the embedded web server. -/
inductive ServerState where
  | Stopped
  | Running
deriving DecidableEq, Repr

/-- Process state of the notebook cell: the global visitor_counter together
with the serving status. The Python counter is only ever set to zero or
incremented, so Nat models it exactly. -/
structure SysState where
  visitor_counter : Nat
  server : ServerState
deriving DecidableEq, Repr

/-- Inbound HTTP requests dispatched to the registered routes. A root request
carries the ambient current date already rendered in ISO form, the value that
str of datetime.date.today produces in the source. -/
inductive Request where
  | root (today : String)
  | testNYU
deriving DecidableEq, Repr

/-- Handler registered on the root path. The stop_server line in its body is
commented out in the source, so the handler only builds the greeting and
leaves the process state untouched. -/
def hello_world (today : String) (s : SysState) : String × SysState :=
  ("Hello Panos, it is now " ++ today, s)

/-- Handler registered on the testNYU path. The stop_server line in its body
is commented out in the source as well; the handler increments the global
visitor_counter and reports the new value with the decimal rendering the
Python format call produces. -/
def hello_nyu (s : SysState) : String × SysState :=
  ("Hello! You are visitor #" ++ toString (s.visitor_counter + 1),
   { s with visitor_counter := s.visitor_counter + 1 })

/-- Route dispatch over the two routes registered in the source. -/
def handle : Request → SysState → String × SysState
  | Request.root today, s => hello_world today s
  | Request.testNYU, s => hello_nyu s

/-- The werkzeug serving loop, embedded over a finite trace of inbound
requests: while the status is Running each request is dispatched to its
route handler; once the status is Stopped no further request is accepted. -/
def serve : List Request → SysState → List String × SysState
  | [], s => ([], s)
  | r :: rs, s =>
      if s.server = ServerState.Running then
        let p := handle r s
        let q := serve rs p.2
        (p.1 :: q.1, q.2)
      else ([], s)

/-- Host passed to the listen call in the source. -/
def serverHost : String := "0.0.0.0"

/-- Port passed to the listen call in the source. -/
def serverPort : Nat := 5000

/-- Failure of the external listen call when the port is taken. -/
inductive BindError where
  | portInUse
deriving DecidableEq, Repr

/-- The call webserver.run as the source performs it: the external library
binds the given host and port; if the port is already taken the call raises
a bind error, otherwise the serving loop runs over the inbound trace starting
in the Running status and the call returns only when that loop ends. The
portFree argument is the environment fact of whether the port is available. -/
def run (portFree : Bool) (_host : String) (_port : Nat)
    (trace : List Request) (s : SysState) :
    Except BindError (List String × SysState) :=
  if portFree then
    Except.ok (serve trace { s with server := ServerState.Running })
  else
    Except.error BindError.portInUse

/-- start_server from the source: set the global visitor_counter to zero,
then invoke webserver.run on host 0.0.0.0 and port 5000. The source wraps
the run call in no exception handling and no retry loop. -/
def start_server (portFree : Bool) (trace : List Request) (s : SysState) :
    Except BindError (List String × SysState) :=
  run portFree serverHost serverPort trace { s with visitor_counter := 0 }

/-- Control returns normally from start_server to its caller exactly when the
embedded run call finishes with the serving loop in the Stopped status. -/
def startUnblocks (trace : List Request) (s : SysState) : Bool :=
  match start_server true trace s with
  | Except.ok out => decide (out.2.server = ServerState.Stopped)
  | Except.error _ => false

/-- Key looked up by stop_server in the request environ. -/
def shutdownKey : String := "werkzeug.server.shutdown"

/-- Python runtime error raised when the value None is called. -/
inductive PyError where
  | noneNotCallable
deriving DecidableEq, Repr

/-- stop_server from the source: request.environ.get on the shutdown key
yields the werkzeug shutdown callable when the serving environment provides
one and None otherwise; the source then calls the looked-up value
unconditionally. Calling the callable stops the serving loop; calling None
raises a runtime error. The environ is embedded as an association list whose
entries mark the presence of the shutdown callable. -/
def stop_server (environ : List (String × Unit)) (s : SysState) :
    Except PyError SysState :=
  match environ.lookup shutdownKey with
  | some _ => Except.ok { s with server := ServerState.Stopped }
  | none => Except.error PyError.noneNotCallable

/-- Lifecycle events of the component: the start call and inbound requests. -/
inductive Event where
  | start
  | request (r : Request)
deriving DecidableEq, Repr

/-- One lifecycle step: the start event is the state entering the listen call
of start_server with the port free; a request is dispatched to its handler
only while the status is Running, since the listening loop exists only then. -/
def stepEv : Event → SysState → SysState
  | Event.start, _ => { visitor_counter := 0, server := ServerState.Running }
  | Event.request r, s =>
      if s.server = ServerState.Running then (handle r s).2 else s

/-- The state at module load: counter zero, server not yet started. -/
def initState : SysState :=
  { visitor_counter := 0, server := ServerState.Stopped }

/-- States reachable from module load under lifecycle events. -/
inductive Reachable : SysState → Prop where
  | init : Reachable initState
  | step (e : Event) {s : SysState} : Reachable s → Reachable (stepEv e s)

theorem handle_server_eq (r : Request) (s : SysState) :
    (handle r s).2.server = s.server := by
  cases r <;> rfl

theorem serve_running_server (trace : List Request) :
    ∀ s : SysState, s.server = ServerState.Running →
      (serve trace s).2.server = ServerState.Running := by
  induction trace with
  | nil => intro s h; exact h
  | cons r rs ih =>
      intro s h
      simp only [serve, h, if_pos]
      exact ih _ (by rw [handle_server_eq]; exact h)

theorem serve_replicate (n : Nat) :
    ∀ c : Nat,
      serve (List.replicate n Request.testNYU) ⟨c, ServerState.Running⟩ =
        ((List.range' (c + 1) n).map
            (fun k => "Hello! You are visitor #" ++ toString k),
         ⟨c + n, ServerState.Running⟩) := by
  induction n with
  | zero => intro c; simp [serve]
  | succ n ih =>
      intro c
      rw [List.replicate_succ, List.range'_succ, List.map_cons]
      simp only [serve, handle, hello_nyu]
      rw [if_pos trivial, ih (c + 1)]
      have hn : c + 1 + n = c + (n + 1) := by omega
      rw [hn]

/-- C1: the claim says a testNYU request triggers server shutdown so that a
subsequent request fails; on the code as written the stop_server call in
hello_nyu is commented out, so after a first testNYU request the server is
still Running and a second testNYU request is served normally, answering
with visitor number two. -/
theorem hello_nyu_keeps_server_running :
    start_server true [Request.testNYU, Request.testNYU] initState =
      Except.ok (["Hello! You are visitor #1", "Hello! You are visitor #2"],
        ⟨2, ServerState.Running⟩) := by
  rfl

/-- C2: each invocation of the testNYU handler increments the visitor
counter by exactly one and returns the body built from the post-increment
counter value. -/
theorem hello_nyu_increments_and_reports (s : SysState) :
    (hello_nyu s).2.visitor_counter = s.visitor_counter + 1 ∧
    (hello_nyu s).1 =
      "Hello! You are visitor #" ++ toString (s.visitor_counter + 1) :=
  ⟨rfl, rfl⟩

/-- C4: each invocation of the root handler returns the greeting built from
the current date and leaves the process state, in particular the serving
status, exactly as it was, so it never triggers a shutdown. -/
theorem hello_world_greets_and_keeps_state (today : String) (s : SysState) :
    (hello_world today s).1 = "Hello Panos, it is now " ++ today ∧
    (hello_world today s).2 = s :=
  ⟨rfl, rfl⟩

/-- C10: the root handler leaves the visitor counter (indeed the whole
process state) unchanged, and over the full request alphabet only a testNYU
request changes the counter, which together with the reset in start_server
makes those two the only writers. -/
theorem hello_world_counter_frame (today : String) (s : SysState) :
    (hello_world today s).2 = s ∧
    (handle (Request.root today) s).2.visitor_counter = s.visitor_counter ∧
    (handle Request.testNYU s).2.visitor_counter = s.visitor_counter + 1 :=
  ⟨rfl, rfl, rfl⟩

/-- C3: within a single server run started by start_server, the bodies
returned by n successive testNYU requests carry the visitor numbers one
through n in order: each successive number is the previous one plus one,
starting at one, whatever state was left over before the start. -/
theorem testNYU_numbers_count_up (n : Nat) (prev : SysState) :
    start_server true (List.replicate n Request.testNYU) prev =
      Except.ok
        ((List.range' 1 n).map
            (fun k => "Hello! You are visitor #" ++ toString k),
         ⟨n, ServerState.Running⟩) := by
  show Except.ok (serve (List.replicate n Request.testNYU)
      ⟨0, ServerState.Running⟩) = _
  rw [serve_replicate n 0]
  simp

/-- C5: every invocation of start_server sets the visitor counter to zero
before the server begins serving: its outcome is the same as from the fresh
module-load state, and when the port is free the serving loop starts from
counter zero, whatever counter value the prior state held. -/
theorem start_server_resets_counter
    (portFree : Bool) (trace : List Request) (s : SysState) :
    start_server portFree trace s = start_server portFree trace initState ∧
    start_server true trace s =
      Except.ok (serve trace ⟨0, ServerState.Running⟩) :=
  ⟨by cases portFree <;> rfl, rfl⟩

/-- C6: start_server blocks inside the serving loop and control returns to
its caller only once the loop reaches the Stopped status; since no registered
handler of the source triggers a shutdown, no finite request trace, in
particular not the empty one where no request ever arrives, makes
start_server return. -/
theorem start_server_never_unblocks (trace : List Request) (s : SysState) :
    startUnblocks trace s = false := by
  have h := serve_running_server trace ⟨0, ServerState.Running⟩ rfl
  simp only [startUnblocks, start_server, run, serverHost, serverPort,
    if_pos]
  simp [h]

/-- C7: the lifecycle state machine of the component: the state space has
exactly the statuses Stopped and Running, the machine is created Stopped at
module load, it moves to Running only through the start event that enters
the listen call, and from Running no event reaches Stopped, so in particular
a move back to Stopped happens only when a registered handler triggers a
shutdown, which none does. -/
theorem lifecycle_state_machine :
    initState.server = ServerState.Stopped ∧
    (∀ s : SysState, Reachable s →
        s.server = ServerState.Stopped ∨ s.server = ServerState.Running) ∧
    (∀ (s : SysState) (e : Event), s.server = ServerState.Stopped →
        (stepEv e s).server = ServerState.Running → e = Event.start) ∧
    (∀ (s : SysState) (e : Event), s.server = ServerState.Running →
        (stepEv e s).server = ServerState.Running) := by
  refine ⟨rfl, ?_, ?_, ?_⟩
  · intro s _
    cases h : s.server
    · exact Or.inl rfl
    · exact Or.inr rfl
  · intro s e hs hr
    cases e with
    | start => rfl
    | request r =>
        exfalso
        rw [stepEv, if_neg (by rw [hs]; exact fun h => nomatch h)] at hr
        rw [hs] at hr
        exact nomatch hr
  · intro s e hs
    cases e with
    | start => rfl
    | request r =>
        rw [stepEv, if_pos hs, handle_server_eq]
        exact hs

theorem lifecycle_state_machine_witness :
    (initState.server = ServerState.Stopped ∨
      initState.server = ServerState.Running) ∧
    Event.start = Event.start ∧
    (stepEv (Event.request Request.testNYU)
        ⟨1, ServerState.Running⟩).server = ServerState.Running :=
  ⟨lifecycle_state_machine.2.1 initState Reachable.init,
   lifecycle_state_machine.2.2.1 initState Event.start rfl rfl,
   lifecycle_state_machine.2.2.2 ⟨1, ServerState.Running⟩
     (Event.request Request.testNYU) rfl⟩

/-- C8: when the configured port 5000 is already in use, the listen call
fails with a bind error that start_server, having no handler and no retry
around its single run call, surfaces unchanged to its caller. -/
theorem start_server_bind_failure (trace : List Request) (s : SysState) :
    start_server false trace s = Except.error BindError.portInUse ∧
    serverPort = 5000 :=
  ⟨rfl, rfl⟩

/-- C9: when stop_server runs in a context whose request environ does not
provide the werkzeug shutdown callable, the environ lookup yields none and
the subsequent call raises a runtime error instead of performing any
shutdown. -/
theorem stop_server_without_callable
    (environ : List (String × Unit)) (s : SysState)
    (h : environ.lookup shutdownKey = none) :
    stop_server environ s = Except.error PyError.noneNotCallable := by
  simp [stop_server, h]

theorem stop_server_without_callable_witness :
    (([] : List (String × Unit)).lookup shutdownKey = none) ∧
    stop_server [] initState = Except.error PyError.noneNotCallable :=
  ⟨rfl, stop_server_without_callable [] initState rfl⟩

end FlaskCallback
